import Mathlib

/-!
Verification development for the workspace controller of the `ili` viewer
(`src/js/Workspace.js`).  The JavaScript number universe is modelled by
exact rationals extended with the special values `NaN`, `Infinity` and
`-Infinity`; the values `null` and `undefined` are carried alongside because
the controller's intensity pipeline feeds them into numeric comparisons,
where JavaScript coerces `null` to `0` and `undefined` to `NaN`.
Stateful code is embedded as pure step functions on an explicit workspace
state; the event bus is modelled by a trace of emitted event names together
with the single internal subscription the constructor installs
(`no-tasks` → `_loadPendingSettings`).
-/

namespace IliWorkspace

/-- A JavaScript value as it can reach the controller's numeric pipeline:
a finite number (exact rational model), `NaN`, the two infinities, `null`
or `undefined`. -/
inductive JsVal where
  | null
  | undef
  | nan
  | inf
  | ninf
  | num (q : ℚ)
deriving DecidableEq, Repr

/-- Result of JavaScript `ToNumber` coercion: an extended number.
`null` coerces to `0`, `undefined` to `NaN`. -/
inductive ENum where
  | nanE
  | ninfE
  | fin (q : ℚ)
  | infE
deriving DecidableEq, Repr

/-- JavaScript `ToNumber` on the values of `JsVal`. -/
def toENum : JsVal → ENum
  | .null => .fin 0
  | .undef => .nanE
  | .nan => .nanE
  | .inf => .infE
  | .ninf => .ninfE
  | .num q => .fin q

/-- Back-embedding of extended numbers into `JsVal`. -/
def ofENum : ENum → JsVal
  | .nanE => .nan
  | .ninfE => .ninf
  | .infE => .inf
  | .fin q => .num q

/-- Order on extended numbers: `-∞ <` finite `< ∞`.  The `nanE` rows are
never consulted through `jsGE`/`jsGT`/`jsLE`/`jsLT` (those test for `NaN`
first, as the ECMAScript relational comparison does); they only give the
sort comparator a total order to work with. -/
def eLE : ENum → ENum → Bool
  | .nanE, _ => true
  | _, .nanE => false
  | .ninfE, _ => true
  | _, .ninfE => false
  | .fin a, .fin b => decide (a ≤ b)
  | .fin _, .infE => true
  | .infE, .infE => true
  | .infE, .fin _ => false

/-- Strict version of `eLE`. -/
def eLT (a b : ENum) : Bool := !(eLE b a)

/-- JavaScript `a >= b`: `false` whenever either side coerces to `NaN`. -/
def jsGE (a b : JsVal) : Bool :=
  match toENum a, toENum b with
  | .nanE, _ => false
  | _, .nanE => false
  | x, y => eLE y x

/-- JavaScript `a > b`. -/
def jsGT (a b : JsVal) : Bool :=
  match toENum a, toENum b with
  | .nanE, _ => false
  | _, .nanE => false
  | x, y => eLT y x

/-- JavaScript `a < b`. -/
def jsLT (a b : JsVal) : Bool :=
  match toENum a, toENum b with
  | .nanE, _ => false
  | _, .nanE => false
  | x, y => eLT x y

/-- Subtraction on extended numbers (JavaScript `-` after `ToNumber`). -/
def eSub : ENum → ENum → ENum
  | .nanE, _ => .nanE
  | _, .nanE => .nanE
  | .infE, .infE => .nanE
  | .infE, _ => .infE
  | .ninfE, .ninfE => .nanE
  | .ninfE, _ => .ninfE
  | .fin _, .infE => .ninfE
  | .fin _, .ninfE => .infE
  | .fin a, .fin b => .fin (a - b)

/-- Division on extended numbers (JavaScript `/` after `ToNumber`);
only the positive zero of the exact model exists, so `x / 0` is `+∞` for
`x > 0`, `-∞` for `x < 0` and `NaN` for `x = 0`. -/
def eDiv : ENum → ENum → ENum
  | .nanE, _ => .nanE
  | _, .nanE => .nanE
  | .infE, .infE => .nanE
  | .infE, .ninfE => .nanE
  | .ninfE, .infE => .nanE
  | .ninfE, .ninfE => .nanE
  | .infE, .fin b => if b < 0 then .ninfE else .infE
  | .ninfE, .fin b => if b < 0 then .infE else .ninfE
  | .fin _, .infE => .fin 0
  | .fin _, .ninfE => .fin 0
  | .fin a, .fin b =>
    if b = 0 then (if a = 0 then .nanE else if a > 0 then .infE else .ninfE)
    else .fin (a / b)

/-- JavaScript subtraction on `JsVal`. -/
def jsSub (a b : JsVal) : JsVal := ofENum (eSub (toENum a) (toENum b))

/-- JavaScript division on `JsVal`. -/
def jsDiv (a b : JsVal) : JsVal := ofENum (eDiv (toENum a) (toENum b))

/-- JavaScript loose equality `==` restricted to the values of `JsVal`:
`null` and `undefined` are loosely equal to each other and to nothing
else; `NaN` is loosely equal to nothing, including itself. -/
def jsLooseEq : JsVal → JsVal → Bool
  | .null, .null => true
  | .null, .undef => true
  | .undef, .null => true
  | .undef, .undef => true
  | .null, _ => false
  | .undef, _ => false
  | _, .null => false
  | _, .undef => false
  | .nan, _ => false
  | _, .nan => false
  | .inf, .inf => true
  | .inf, _ => false
  | .ninf, .ninf => true
  | .ninf, _ => false
  | .num a, .num b => decide (a = b)
  | .num _, _ => false

/-- JavaScript loose inequality `!=`. -/
def jsLooseNEq (a b : JsVal) : Bool := !(jsLooseEq a b)

/-- Modelled from the spec: `Math.log10` is JavaScript standard-library
code, not part of this repository.  The spec fixes only its domain side
(`log10`: domain = reals strictly greater than `0` and finite); outside
that domain the JS runtime yields `NaN` (and `-∞` at `0`, `+∞` at `+∞`).
Its finite positive outputs are irrational and are consulted by no theorem
below, so they are represented by the placeholder `0`. -/
def mathLog10 (v : JsVal) : JsVal :=
  match toENum v with
  | .nanE => .nan
  | .ninfE => .nan
  | .infE => .inf
  | .fin q => if q < 0 then .nan else if q = 0 then .ninf else .num 0

/-- A scale registry entry: `Workspace.Scale.*` in the source, with fields
`id`, `function` (here `fn`, since `function` is reserved), `filter` and
`legend`. -/
structure Scale where
  id : String
  fn : JsVal → JsVal
  filter : JsVal → Bool
  legend : String

/-- `Workspace.Scale.LOG`: id `'log'`, `Math.log10`,
filter `x > 0.0 && x < Infinity`. -/
def LOG : Scale :=
  { id := "log"
    fn := mathLog10
    filter := fun x => jsGT x (.num 0) && jsLT x .inf
    legend := "log" }

/-- `Workspace.Scale.LINEAR`: id `'linear'`, identity,
filter `x > -Infinity && x < Infinity`. -/
def LINEAR : Scale :=
  { id := "linear"
    fn := fun x => x
    filter := fun x => jsGT x .ninf && jsLT x .inf
    legend := "" }

/-- The scale registry in the source's property-insertion order
(`LOG` first, then `LINEAR`), as enumerated by the `for in` loop of
`Workspace.getScaleById`. -/
def scaleList : List Scale := [LOG, LINEAR]

/-- `Workspace.getScaleById`: linear search of the registry by `id`;
the `throw` of the source becomes the `Except.error` case. -/
def getScaleById (id : String) : Except String Scale :=
  match scaleList.find? (fun s => s.id == id) with
  | some s => .ok s
  | none => .error ("Invalid scale id: " ++ id)

/-- A spot: identity `name` plus the display fields `loadIntensities`
installs (`scale`, `color`, `visibility`) and the derived `intensity`.
Spatial coordinates live with the loader/scene collaborators and are not
consulted by the controller code under verification, so they are omitted. -/
structure Spot where
  name : String
  scale : ℚ
  color : String
  visibility : ℚ
  intensity : JsVal
deriving DecidableEq, Repr

/-- A measure: a name and the spot-aligned raw values. -/
structure Measure where
  name : String
  values : List JsVal
deriving DecidableEq, Repr

/-- The `_activeMeasure` slot.  The source distinguishes `null` (initial
value, also what `loadIntensities` stores) from `undefined` (what
`selectMapByIndex` stores for an out-of-range index), and the two behave
differently under numeric coercion, so both are modelled. -/
inductive ActiveMeasure where
  | null
  | undef
  | mval (m : Measure)
deriving DecidableEq, Repr

/-- Workspace modes (`Workspace.Mode`). -/
inductive Mode where
  | undefinedMode
  | mode2d
  | mode3d
deriving DecidableEq, Repr

/-- Which scene `_currentScene` points at. -/
inductive SceneRef where
  | ref2d
  | ref3d
deriving DecidableEq, Repr

/-- State of the 2D scene collaborator that the controller owns or clears:
the image (`setImage`/`resetImage`), the spot reference, the colormap. -/
structure Scene2DState where
  image : Option String
  spots : Option (List Spot)
  colorMap : String
deriving DecidableEq, Repr

/-- State of the 3D scene collaborator that the controller owns or clears:
the geometry, the spot reference, the colormap. -/
structure Scene3DState where
  geometry : Option String
  spots : Option (List Spot)
  colorMap : String
deriving DecidableEq, Repr

/-- The workspace state: the fields of `Workspace` the claims touch,
plus `events`, the trace of event names passed to `_notify`. -/
structure WState where
  mode : Mode
  errors : List String
  spots : Option (List Spot)
  measures : Option (List Measure)
  activeMeasure : ActiveMeasure
  colorMap : String
  scale : Scale
  hotspotQuantile : ℚ
  autoMinMax : Bool
  minValue : JsVal
  maxValue : JsVal
  scene2d : Scene2DState
  scene3d : Scene3DState
  currentScene : Option SceneRef
  loadedSettings : Option String
  status : String
  tasks : List String
  settingsToLoad : Option String
  events : List String

/-- The state the `Workspace` constructor builds (`VIRIDIS` is the default
colormap the external `colormaps` module provides). -/
def initialWorkspace : WState :=
  { mode := .undefinedMode
    errors := []
    spots := none
    measures := none
    activeMeasure := .null
    colorMap := "VIRIDIS"
    scale := LINEAR
    hotspotQuantile := 1
    autoMinMax := true
    minValue := .num 0
    maxValue := .num 0
    scene2d := { image := none, spots := none, colorMap := "VIRIDIS" }
    scene3d := { geometry := none, spots := none, colorMap := "VIRIDIS" }
    currentScene := none
    loadedSettings := none
    status := ""
    tasks := []
    settingsToLoad := none
    events := [] }

/-- Key set of `this._tasks`: assigning `this._tasks[key]` adds the key if
absent and otherwise replaces the stored task, leaving the key set as is. -/
def insertKey (l : List String) (k : String) : List String :=
  if k ∈ l then l else l ++ [k]

/-- The task-set effect of the `_doTask(LOAD_SETTINGS, …)` call inside
`_loadPendingSettings`.  That `_doTask` begins with
`if (taskType.key in this._tasks) this._cancelTask(taskType)`, which is
vacuous there because `_loadPendingSettings` only calls it under the guard
that the task set is empty; registering the task is the remaining
task-set effect (the promise machinery is collaborator territory). -/
def startSettingsTask (ws : WState) : WState :=
  { ws with tasks := insertKey ws.tasks "load-settings" }

/-- `Workspace._loadPendingSettings`: when no task runs and a settings
payload is pending, start the `LOAD_SETTINGS` task and clear the pending
slot. -/
def loadPendingSettingsStep (ws : WState) : WState :=
  if ws.tasks.isEmpty && ws.settingsToLoad.isSome then
    { startSettingsTask ws with settingsToLoad := none }
  else ws

/-- `EventSource._notify` as wired in the `Workspace` constructor: record
the event in the trace; the constructor's single internal subscription
makes `no-tasks` re-enter `_loadPendingSettings`.  External subscribers
only read state and are not modelled. -/
def notify (ws : WState) (e : String) : WState :=
  let ws1 := { ws with events := ws.events ++ [e] }
  if e = "no-tasks" then loadPendingSettingsStep ws1 else ws1

/-- `Workspace._setStatus`. -/
def setStatus (ws : WState) (s : String) : WState :=
  notify { ws with status := s } "status-change"

/-- `Workspace._cancelTask`: remove the task of that kind if present
(terminating its worker is collaborator territory), then — on every call
whose resulting task set is empty — fire `no-tasks`. -/
def cancelTask (ws : WState) (key : String) : WState :=
  let ws1 := if key ∈ ws.tasks then { ws with tasks := ws.tasks.erase key } else ws
  if ws1.tasks.isEmpty then notify ws1 "no-tasks" else ws1

/-- `Workspace.loadSettings`: store the payload (overwriting an undrained
older one) and immediately attempt the drain. -/
def loadSettings (ws : WState) (payload : String) : WState :=
  loadPendingSettingsStep { ws with settingsToLoad := some payload }

/-- The `completed` path of a running `LOAD_SETTINGS` task: the worker
message handler clears the status, resolves the promise and retires the
task via `task.cancel()`; the resolution callback (which runs after the
synchronous handler) stores the loaded settings and fires
`settings-change`. -/
def completeSettingsTask (ws : WState) (settings : String) : WState :=
  let ws1 := setStatus ws ""
  let ws2 := cancelTask ws1 "load-settings"
  notify { ws2 with loadedSettings := some settings } "settings-change"

/-- The sort order used to model `values.sort(function(a, b) return a - b)`:
stable ascending order of the `ToNumber` coercions.  Every value admitted
by a registry filter coerces to a non-`NaN` extended number, on which
`eLE` is the numeric order, so a stable sort by this order is exactly what
the consistent comparator `a - b` produces under the ECMAScript stable
`Array.prototype.sort`. -/
def JsLe (a b : JsVal) : Prop := eLE (toENum a) (toENum b) = true

instance : DecidableRel JsLe := fun a b => inferInstanceAs (Decidable (_ = true))

instance : IsTotal JsVal JsLe where
  total a b := by
    unfold JsLe
    cases toENum a <;> cases toENum b <;> simp [eLE] <;> exact le_total _ _

instance : IsTrans JsVal JsLe where
  trans a b c := by
    unfold JsLe
    cases toENum a <;> cases toENum b <;> cases toENum c <;> simp [eLE]
    exact fun h h' => le_trans h h'

instance : IsRefl JsVal JsLe where
  refl a := by unfold JsLe; cases toENum a <;> simp [eLE]

/-- JavaScript array indexing `l[i]` with a possibly negative computed
index: any out-of-range access yields `undefined`. -/
def jsIndex (l : List JsVal) (i : ℤ) : JsVal :=
  if i < 0 then JsVal.undef else l.getD i.toNat JsVal.undef

/-- `Workspace._updateMinMaxValues`: filter the active measure's raw
values through the scale's filter, sort ascending, derive the bounds
(`0.0` each when nothing survives; otherwise the transform of the first
element and of the element at index `Math.ceil((n-1)*hotspotQuantile)`),
and — exactly when one of the bounds changed under loose `!=` — store
them, fire `auto-mapping-change` and `mapping-change`, and report `true`. -/
def updateMinMaxValues (ws : WState) : WState × Bool :=
  let raw : List JsVal :=
    match ws.activeMeasure with
    | .mval m => m.values
    | _ => []
  let values := (raw.filter ws.scale.filter).insertionSort JsLe
  let minValue : JsVal :=
    if 0 < values.length then ws.scale.fn (values.getD 0 .undef) else .num 0
  let maxValue : JsVal :=
    if 0 < values.length then
      ws.scale.fn (jsIndex values ⌈((values.length : ℚ) - 1) * ws.hotspotQuantile⌉)
    else .num 0
  if jsLooseNEq ws.minValue minValue || jsLooseNEq ws.maxValue maxValue then
    let ws1 := { ws with minValue := minValue, maxValue := maxValue }
    let ws2 := notify ws1 "auto-mapping-change"
    (notify ws2 "mapping-change", true)
  else (ws, false)

/-- The value of `scaledValue` for spot index `i` in
`_updateIntensities`: `this._activeMeasure && this._scale.function(...)`
short-circuits to `null`/`undefined` when no measure is active, and an
out-of-range `values[i]` is `undefined`. -/
def scaledValueAt (ws : WState) (i : ℕ) : JsVal :=
  match ws.activeMeasure with
  | .null => .null
  | .undef => .undef
  | .mval m => ws.scale.fn (m.values.getD i .undef)

/-- The per-spot intensity computation of `_updateIntensities`: the
`NaN` default, then the `>= max` / `>= min` branches. -/
def spotIntensityCore (minV maxV scaled : JsVal) : JsVal :=
  if jsGE scaled maxV then .num 1
  else if jsGE scaled minV then jsDiv (jsSub scaled minV) (jsSub maxV minV)
  else .nan

/-- Structurally recursive indexed map (the `for` loop counter). -/
def mapIdxFrom (f : ℕ → Spot → Spot) (i : ℕ) : List Spot → List Spot
  | [] => []
  | s :: l => f i s :: mapIdxFrom f (i + 1) l

/-- `Workspace._updateIntensities`: no-op without spots; otherwise store
the recomputed intensity on every spot.  The trailing
`scene.updateIntensities` calls are renders on the collaborators and in
the source act on the very spot objects just updated. -/
def updateIntensities (ws : WState) : WState :=
  match ws.spots with
  | none => ws
  | some spots =>
    let spots1 := mapIdxFrom
      (fun i s =>
        { s with intensity := spotIntensityCore ws.minValue ws.maxValue (scaledValueAt ws i) })
      0 spots
    { ws with spots := some spots1 }

/-- `Workspace.selectMapByIndex`: no-op when no measures are loaded;
otherwise store `measures[index]` (which is `undefined` out of range),
recompute the bounds when `autoMinMax` is on, and recompute intensities. -/
def selectMapByIndex (ws : WState) (index : ℕ) : WState :=
  match ws.measures with
  | none => ws
  | some ms =>
    let ws1 :=
      { ws with activeMeasure :=
          match ms.get? index with
          | some m => .mval m
          | none => .undef }
    let ws2 := if ws1.autoMinMax then (updateMinMaxValues ws1).1 else ws1
    updateIntensities ws2

/-- The `mapName` getter: the active measure's name, or `''`. -/
def mapName (ws : WState) : String :=
  match ws.activeMeasure with
  | .mval m => m.name
  | _ => ""

/-- The `mode` setter: no-op on the current mode; otherwise assign the
mode first, then branch on the *new* mode — entering 2D attaches the spot
reference and makes the 2D scene current, while entering anything else
resets the image, drops the 2D spot reference and cancels `LOAD_IMAGE`;
symmetrically for 3D with the geometry and `LOAD_MESH`; finally fire
`mode-change`. -/
def setMode (ws : WState) (value : Mode) : WState :=
  if ws.mode = value then ws
  else
    let ws0 := { ws with mode := value }
    let ws1 :=
      if value = .mode2d then
        { ws0 with scene2d := { ws0.scene2d with spots := ws0.spots },
                   currentScene := some .ref2d }
      else
        cancelTask
          { ws0 with scene2d := { ws0.scene2d with image := none, spots := none } }
          "load-image"
    let ws2 :=
      if value = .mode3d then
        { ws1 with scene3d := { ws1.scene3d with spots := ws1.spots },
                   currentScene := some .ref3d }
      else
        cancelTask
          { ws1 with scene3d := { ws1.scene3d with geometry := none, spots := none } }
          "load-mesh"
    notify ws2 "mode-change"

/-- The `colorMapId` setter.  The colormap registry lives in the external
`colormaps` module (modelled from the spec as an immutable lookup table
passed in as `maps`); the guard `if (value in ColorMap.Maps)` is the
source's, and on a miss the setter does nothing at all. -/
def setColorMapId (maps : List (String × String)) (ws : WState) (value : String) : WState :=
  match maps.lookup value with
  | some cm =>
    notify
      { ws with colorMap := cm,
                scene2d := { ws.scene2d with colorMap := cm },
                scene3d := { ws.scene3d with colorMap := cm } }
      "mapping-change"
  | none => ws

/-- The clamp inside the `spotVisibility` setter:
`v < 0 ? 0 : v > 1 ? 1 : v`. -/
def clampVisibility (v : ℚ) : ℚ := if v < 0 then 0 else if v > 1 then 1 else v

/-- The per-spot write of the `spotVisibility` setter, applied to a spot
whose name was found in the incoming mapping. -/
def visSetter (s : Spot) (values : List (String × ℚ)) : Spot :=
  match values.lookup s.name with
  | some v => { s with visibility := clampVisibility v }
  | none => s

/-- The scene half of the generic spots-property `set`: the loop indexes
the current scene's spot array with the same counter it uses for
`this._spots`, guarded by the name of the `this._spots` entry. -/
def visApplyScene (spots : List Spot) (values : List (String × ℚ)) (i : ℕ) (sceneSpots : List Spot) : List Spot :=
  match sceneSpots with
  | [] => []
  | s :: l =>
    (match spots.get? i with
     | some s0 => if (values.lookup s0.name).isSome then visSetter s values else s
     | none => s) :: visApplyScene spots values (i + 1) l

/-- The `spotVisibility` setter (an instance of
`Workspace._createSpotsProperty`): nothing happens without spots;
otherwise every spot whose name appears in the incoming mapping gets the
clamped value, mirrored into the current scene's spot array (the same
objects in the source); names matching no spot are ignored.  This property
has no post-modification callback, so the fallback branch merely refreshes
the current scene (a render, not state) and nothing is notified. -/
def setSpotVisibility (ws : WState) (values : List (String × ℚ)) : WState :=
  match ws.spots with
  | none => ws
  | some spots =>
    let spots1 := spots.map (fun s =>
      if (values.lookup s.name).isSome then visSetter s values else s)
    let ws1 := { ws with spots := some spots1 }
    match ws.currentScene with
    | some .ref2d =>
      { ws1 with scene2d :=
          { ws1.scene2d with spots := ws1.scene2d.spots.map (visApplyScene spots values 0) } }
    | some .ref3d =>
      { ws1 with scene3d :=
          { ws1.scene3d with spots := ws1.scene3d.spots.map (visApplyScene spots values 0) } }
    | none => ws1

/-- A spot as `loadIntensities` produces it (display defaults installed,
intensity not yet computed). -/
def mkSpot (n : String) : Spot :=
  { name := n, scale := 1, color := "ffffff", visibility := 1, intensity := .nan }

/-- The measure of the spec's quantile-boundary example. -/
def c1Measure : Measure :=
  { name := "m", values := [.num 1, .num 2, .num 3, .num 4, .num 5] }

/-- The spec's quantile-boundary scenario: five spots, measure values
`[1,2,3,4,5]`, linear scale, `hotspotQuantile = 0.5`, `autoMinMax` on. -/
def c1State : WState :=
  { initialWorkspace with
      spots := some [mkSpot "s1", mkSpot "s2", mkSpot "s3", mkSpot "s4", mkSpot "s5"]
      measures := some [c1Measure]
      hotspotQuantile := 1/2 }

/-- The quantile-boundary scenario right after `selectMapByIndex 0` has
stored the active measure (the state on which `_updateMinMaxValues`
runs). -/
def c1Selected : WState := { c1State with activeMeasure := .mval c1Measure }

/-- The spec's division-guard scenario: `minValue == maxValue == 5`,
active measure with raw values `5` and `3`. -/
def c2State : WState :=
  { initialWorkspace with
      spots := some [mkSpot "a", mkSpot "b"]
      activeMeasure := .mval { name := "m", values := [.num 5, .num 3] }
      autoMinMax := false
      minValue := .num 5
      maxValue := .num 5 }

/-- Spots loaded, no measure selected yet (`_activeMeasure` still `null`),
bounds at their initial `0.0`. -/
def c3State : WState :=
  { initialWorkspace with spots := some [mkSpot "a"] }

/-- One running image-load task, nothing pending. -/
def c5State : WState :=
  { initialWorkspace with tasks := ["load-image"] }

/-- One running measures-load task. -/
def c6State : WState :=
  { initialWorkspace with tasks := ["load-measures"] }

/-- One running measures-load task plus an undrained pending settings
payload. -/
def c6Pending : WState :=
  { initialWorkspace with tasks := ["load-measures"], settingsToLoad := some "blob" }

/-- A 2D workspace with an image, spots and a running image-load task. -/
def c7State : WState :=
  { initialWorkspace with
      mode := .mode2d
      spots := some [mkSpot "a", mkSpot "b"]
      scene2d := { image := some "img", spots := some [mkSpot "a", mkSpot "b"],
                   colorMap := "VIRIDIS" }
      currentScene := some .ref2d
      tasks := ["load-image"] }

/-- Three spots for the visibility-clamp scenario. -/
def c8State : WState :=
  { initialWorkspace with spots := some [mkSpot "a", mkSpot "b", mkSpot "c"] }

/-- An incoming visibility mapping: one below-range value, one
above-range value, one name matching no spot. -/
def c8Values : List (String × ℚ) := [("a", -2), ("b", 5), ("z", 3)]

/-- Measures loaded (one measure), spots loaded; index `5` is out of
range. -/
def c9State : WState :=
  { initialWorkspace with
      spots := some [mkSpot "a"]
      measures := some [c1Measure] }

/-! ### Supporting lemmas -/

theorem loadPendingSettingsStep_of_none {ws : WState} (h : ws.settingsToLoad = none) :
    loadPendingSettingsStep ws = ws := by
  simp [loadPendingSettingsStep, h]

theorem notify_of_ne {ws : WState} {e : String} (h : e ≠ "no-tasks") :
    notify ws e = { ws with events := ws.events ++ [e] } := by
  simp [notify, h]

theorem jsIndex_of_nonneg (l : List JsVal) (i : ℤ) (h : 0 ≤ i) :
    jsIndex l i = l.getD i.toNat .undef := by
  simp [jsIndex, not_lt.mpr h]

/-- Loose equality implies equality once `null` and `undefined` are ruled
out on the left (`NaN` is loosely equal to nothing, so the `NaN` rows are
vacuous). -/
theorem eq_of_jsLooseEq {a b : JsVal} (h : jsLooseEq a b = true)
    (h1 : a ≠ .null) (h2 : a ≠ .undef) : a = b := by
  cases a <;> cases b <;> simp_all [jsLooseEq]

/-! ### C10 -/

/-- C10: writing an identifier that is not a key of the colormap registry
to `colorMapId` is silently ignored — the workspace state (including both
scenes' colormaps) is returned unchanged and no event is emitted. -/
theorem claim10_unknown_colormap_id_ignored
    (maps : List (String × String)) (ws : WState) (value : String)
    (h : maps.lookup value = none) :
    setColorMapId maps ws value = ws := by
  simp [setColorMapId, h]

/-- Witness for C10: a concrete registry without the requested id. -/
theorem claim10_unknown_colormap_id_ignored_witness :
    ([("VIRIDIS", "VIRIDIS"), ("JET", "JET")] : List (String × String)).lookup "UNKNOWN"
        = none ∧
    setColorMapId [("VIRIDIS", "VIRIDIS"), ("JET", "JET")] initialWorkspace "UNKNOWN"
        = initialWorkspace :=
  ⟨rfl, claim10_unknown_colormap_id_ignored _ _ _ rfl⟩

/-! ### C4 -/

/-- Counterexample to C4 as stated: the log entry of the registry is
registered under the id `'log'`, so `getScaleById "log10"` does not return
the log scale — it fails with the invalid-scale-id error. -/
theorem claim4_log10_lookup_counterexample :
    getScaleById "log10" = .error "Invalid scale id: log10" := rfl

/-- C4 (amended): the registry holds exactly the entries with ids `"log"`
and `"linear"`; lookup succeeds precisely on those two ids —
`getScaleById "linear"` is the linear scale (identity transform, domain
all finite reals) and `getScaleById "log"` is the base-10 logarithm scale
(domain finite reals strictly greater than 0) — while every other id
(hence in particular `"log10"`) fails with the invalid-scale-id error. -/
theorem claim4_scale_registry_amended :
    scaleList.map Scale.id = ["log", "linear"] ∧
    getScaleById "linear" = .ok LINEAR ∧
    getScaleById "log" = .ok LOG ∧
    LINEAR.fn = (fun x => x) ∧
    (∀ q : ℚ, LINEAR.filter (.num q) = true) ∧
    LINEAR.filter .nan = false ∧
    LINEAR.filter .inf = false ∧
    LINEAR.filter .ninf = false ∧
    (∀ q : ℚ, LOG.filter (.num q) = decide (0 < q)) ∧
    LOG.filter .nan = false ∧
    LOG.filter .inf = false ∧
    LOG.filter .ninf = false ∧
    (∀ id : String, id ≠ "log" → id ≠ "linear" →
      getScaleById id = .error ("Invalid scale id: " ++ id)) := by
  refine ⟨rfl, rfl, rfl, rfl, fun q => rfl, rfl, rfl, rfl, fun q => ?_, rfl, rfl, rfl,
    fun id h1 h2 => ?_⟩
  · by_cases h : 0 < q
    · simp [LOG, jsGT, jsLT, toENum, eLT, eLE, h, not_le.mpr h]
    · simp [LOG, jsGT, jsLT, toENum, eLT, eLE, h, not_lt.mp h]
  · have e1 : (LOG.id == id) = false := by
      simp [LOG]
      exact fun hh => h1 hh.symm
    have e2 : (LINEAR.id == id) = false := by
      simp [LINEAR]
      exact fun hh => h2 hh.symm
    simp [getScaleById, scaleList, List.find?, e1, e2]

/-- Witness for C4 (amended), exercising the failure clause at a concrete
unregistered id. -/
theorem claim4_scale_registry_amended_witness :
    getScaleById "quadratic" = .error "Invalid scale id: quadratic" := by
  obtain ⟨-, -, -, -, -, -, -, -, -, -, -, -, h⟩ := claim4_scale_registry_amended
  exact h "quadratic" (by decide) (by decide)

/-! ### C3 -/

/-- C3 fails on the code: at the failing input — spots loaded, active
measure still `null` (the initial value, also what `loadIntensities`
leaves), `minValue = maxValue = 0` (the initial bounds) — the recompute
stores intensity `1.0`, not the not-a-number sentinel, because JavaScript
evaluates `null >= 0` as true (`null` coerces to `0`).  The `undefined`
active-measure case does behave as the claim says, which shows the `null`
behaviour is a coercion slip rather than intent. -/
theorem claim3_null_measure_intensity_one :
    c3State.activeMeasure = .null ∧
    c3State.minValue = .num 0 ∧
    c3State.maxValue = .num 0 ∧
    ((updateIntensities c3State).spots.getD []).map Spot.intensity = [.num 1] ∧
    ((updateIntensities { c3State with activeMeasure := .undef }).spots.getD []).map
        Spot.intensity = [.nan] := by
  decide

/-! ### C2 -/

theorem mapIdxFrom_length (f : ℕ → Spot → Spot) (i : ℕ) (l : List Spot) :
    (mapIdxFrom f i l).length = l.length := by
  induction l generalizing i with
  | nil => rfl
  | cons s l ih => simp only [mapIdxFrom, List.length_cons, ih]

theorem mapIdxFrom_get (f : ℕ → Spot → Spot) (i : ℕ) (l : List Spot)
    (j : ℕ) (h : j < (mapIdxFrom f i l).length) :
    (mapIdxFrom f i l).get ⟨j, h⟩
      = f (i + j) (l.get ⟨j, by rw [← mapIdxFrom_length f i l]; exact h⟩) := by
  induction l generalizing i j with
  | nil => exact absurd h (by simp [mapIdxFrom])
  | cons s l ih =>
    cases j with
    | zero => rfl
    | succ j =>
      have h' : j < (mapIdxFrom f (i + 1) l).length := by
        simpa [mapIdxFrom] using Nat.lt_of_succ_lt_succ h
      have := ih (i + 1) j h'
      simp only [mapIdxFrom, List.get_cons_succ, this, Nat.add_succ, Nat.succ_add]

/-- C2: when `maxValue` equals `minValue`, the per-spot recompute stores
`1.0` for a scaled value that compares `>= maxValue` and the not-a-number
sentinel for every other spot; the division branch is unreachable, so the
zero-width division never produces a stored value. -/
theorem claim2_equal_bounds_no_division :
    (∀ b scaled : JsVal,
      spotIntensityCore b b scaled = if jsGE scaled b then JsVal.num 1 else JsVal.nan) ∧
    (∀ (ws : WState) (spots : List Spot),
      ws.spots = some spots → ws.maxValue = ws.minValue →
      ∃ spots1, (updateIntensities ws).spots = some spots1 ∧
        spots1.length = spots.length ∧
        ∀ i (h : i < spots1.length),
          (spots1.get ⟨i, h⟩).intensity
            = if jsGE (scaledValueAt ws i) ws.maxValue then JsVal.num 1 else JsVal.nan) := by
  have core : ∀ b scaled : JsVal,
      spotIntensityCore b b scaled = if jsGE scaled b then JsVal.num 1 else JsVal.nan := by
    intro b scaled
    unfold spotIntensityCore
    by_cases h : jsGE scaled b <;> simp [h]
  refine ⟨core, fun ws spots hs hmm => ?_⟩
  refine ⟨mapIdxFrom
      (fun i s =>
        { s with intensity := spotIntensityCore ws.minValue ws.maxValue (scaledValueAt ws i) })
      0 spots, by simp [updateIntensities, hs], by rw [mapIdxFrom_length], ?_⟩
  intro i h
  rw [mapIdxFrom_get]
  simp only [Nat.zero_add]
  rw [hmm, core]

/-- Witness for C2: the spec's division-guard scenario — bounds both `5`,
raw value `5` gets intensity `1.0`, raw value `3` gets the sentinel. -/
theorem claim2_equal_bounds_no_division_witness :
    c2State.spots = some [mkSpot "a", mkSpot "b"] ∧
    c2State.maxValue = c2State.minValue ∧
    (∃ spots1, (updateIntensities c2State).spots = some spots1 ∧
      spots1.length = ([mkSpot "a", mkSpot "b"] : List Spot).length ∧
      ∀ i (h : i < spots1.length),
        (spots1.get ⟨i, h⟩).intensity
          = if jsGE (scaledValueAt c2State i) c2State.maxValue then JsVal.num 1
            else JsVal.nan) ∧
    ((updateIntensities c2State).spots.getD []).map Spot.intensity = [.num 1, .nan] :=
  ⟨rfl, rfl, claim2_equal_bounds_no_division.2 c2State _ rfl rfl, by decide⟩

/-! ### Projection lemmas: `notify` and its callers only touch the
`events`/`tasks`/`settingsToLoad`/`status` slice of the state. -/

@[simp] theorem notify_activeMeasure (ws : WState) (e : String) :
    (notify ws e).activeMeasure = ws.activeMeasure := by
  simp only [notify, loadPendingSettingsStep, startSettingsTask, insertKey]
  repeat' split
  all_goals rfl

@[simp] theorem notify_spots (ws : WState) (e : String) :
    (notify ws e).spots = ws.spots := by
  simp only [notify, loadPendingSettingsStep, startSettingsTask, insertKey]
  repeat' split
  all_goals rfl

@[simp] theorem notify_minValue (ws : WState) (e : String) :
    (notify ws e).minValue = ws.minValue := by
  simp only [notify, loadPendingSettingsStep, startSettingsTask, insertKey]
  repeat' split
  all_goals rfl

@[simp] theorem notify_maxValue (ws : WState) (e : String) :
    (notify ws e).maxValue = ws.maxValue := by
  simp only [notify, loadPendingSettingsStep, startSettingsTask, insertKey]
  repeat' split
  all_goals rfl

@[simp] theorem notify_scale (ws : WState) (e : String) :
    (notify ws e).scale = ws.scale := by
  simp only [notify, loadPendingSettingsStep, startSettingsTask, insertKey]
  repeat' split
  all_goals rfl

@[simp] theorem notify_measures (ws : WState) (e : String) :
    (notify ws e).measures = ws.measures := by
  simp only [notify, loadPendingSettingsStep, startSettingsTask, insertKey]
  repeat' split
  all_goals rfl

@[simp] theorem notify_mode (ws : WState) (e : String) :
    (notify ws e).mode = ws.mode := by
  simp only [notify, loadPendingSettingsStep, startSettingsTask, insertKey]
  repeat' split
  all_goals rfl

@[simp] theorem notify_scene2d (ws : WState) (e : String) :
    (notify ws e).scene2d = ws.scene2d := by
  simp only [notify, loadPendingSettingsStep, startSettingsTask, insertKey]
  repeat' split
  all_goals rfl

@[simp] theorem notify_scene3d (ws : WState) (e : String) :
    (notify ws e).scene3d = ws.scene3d := by
  simp only [notify, loadPendingSettingsStep, startSettingsTask, insertKey]
  repeat' split
  all_goals rfl

@[simp] theorem notify_currentScene (ws : WState) (e : String) :
    (notify ws e).currentScene = ws.currentScene := by
  simp only [notify, loadPendingSettingsStep, startSettingsTask, insertKey]
  repeat' split
  all_goals rfl

@[simp] theorem notify_colorMap (ws : WState) (e : String) :
    (notify ws e).colorMap = ws.colorMap := by
  simp only [notify, loadPendingSettingsStep, startSettingsTask, insertKey]
  repeat' split
  all_goals rfl

@[simp] theorem notify_errors (ws : WState) (e : String) :
    (notify ws e).errors = ws.errors := by
  simp only [notify, loadPendingSettingsStep, startSettingsTask, insertKey]
  repeat' split
  all_goals rfl

@[simp] theorem notify_loadedSettings (ws : WState) (e : String) :
    (notify ws e).loadedSettings = ws.loadedSettings := by
  simp only [notify, loadPendingSettingsStep, startSettingsTask, insertKey]
  repeat' split
  all_goals rfl

@[simp] theorem notify_hotspotQuantile (ws : WState) (e : String) :
    (notify ws e).hotspotQuantile = ws.hotspotQuantile := by
  simp only [notify, loadPendingSettingsStep, startSettingsTask, insertKey]
  repeat' split
  all_goals rfl

@[simp] theorem notify_autoMinMax (ws : WState) (e : String) :
    (notify ws e).autoMinMax = ws.autoMinMax := by
  simp only [notify, loadPendingSettingsStep, startSettingsTask, insertKey]
  repeat' split
  all_goals rfl

theorem updateMinMaxValues_fst_activeMeasure (ws : WState) :
    ((updateMinMaxValues ws).1).activeMeasure = ws.activeMeasure := by
  unfold updateMinMaxValues
  dsimp only
  repeat' split
  all_goals simp

theorem updateMinMaxValues_fst_spots (ws : WState) :
    ((updateMinMaxValues ws).1).spots = ws.spots := by
  unfold updateMinMaxValues
  dsimp only
  repeat' split
  all_goals simp

theorem updateMinMaxValues_fst_scale (ws : WState) :
    ((updateMinMaxValues ws).1).scale = ws.scale := by
  unfold updateMinMaxValues
  dsimp only
  repeat' split
  all_goals simp

theorem jsGE_undef_left (b : JsVal) : jsGE .undef b = false := by
  cases b <;> rfl

theorem spotIntensityCore_undef (a b : JsVal) :
    spotIntensityCore a b .undef = .nan := by
  unfold spotIntensityCore
  simp [jsGE_undef_left]

/-! ### C9 -/

/-- C9: `selectMapByIndex` never fails at the public interface — with no
measures loaded it returns the state unchanged (and hence emits nothing);
with measures loaded and an out-of-range index the active measure becomes
`undefined`, `mapName` is the empty string, and the triggered intensity
recompute stores the not-a-number sentinel on every spot. -/
theorem claim9_select_map_by_index_total :
    (∀ (ws : WState) (i : ℕ), ws.measures = none → selectMapByIndex ws i = ws) ∧
    (∀ (ws : WState) (ms : List Measure) (i : ℕ) (spots : List Spot),
      ws.measures = some ms → ms.get? i = none → ws.spots = some spots →
      (selectMapByIndex ws i).activeMeasure = .undef ∧
      mapName (selectMapByIndex ws i) = "" ∧
      ∃ spots1, (selectMapByIndex ws i).spots = some spots1 ∧
        spots1.length = spots.length ∧
        ∀ s ∈ spots1, s.intensity = JsVal.nan) := by
  constructor
  · intro ws i h
    simp [selectMapByIndex, h]
  · intro ws ms i spots hm hmi hsp
    have key : ∀ ws2 : WState, ws2.activeMeasure = .undef → ws2.spots = some spots →
        (updateIntensities ws2).activeMeasure = .undef ∧
        mapName (updateIntensities ws2) = "" ∧
        ∃ spots1, (updateIntensities ws2).spots = some spots1 ∧
          spots1.length = spots.length ∧
          ∀ s ∈ spots1, s.intensity = JsVal.nan := by
      intro ws2 ham2 hsp2
      have hscaled : ∀ j, scaledValueAt ws2 j = .undef := by
        intro j
        unfold scaledValueAt
        rw [ham2]
      have hui : (updateIntensities ws2).activeMeasure = ws2.activeMeasure := by
        unfold updateIntensities
        cases h : ws2.spots <;> simp
      refine ⟨by rw [hui, ham2], by rw [mapName, hui, ham2], ?_⟩
      refine ⟨mapIdxFrom
          (fun j s =>
            { s with intensity :=
                spotIntensityCore ws2.minValue ws2.maxValue (scaledValueAt ws2 j) })
          0 spots, by simp [updateIntensities, hsp2], by rw [mapIdxFrom_length], ?_⟩
      intro s hs
      obtain ⟨⟨j, hj⟩, rfl⟩ := List.mem_iff_get.mp hs
      rw [mapIdxFrom_get]
      simp [hscaled, spotIntensityCore_undef]
    simp only [selectMapByIndex, hm, hmi]
    refine key _ ?_ ?_
    · split
      · rw [updateMinMaxValues_fst_activeMeasure]
      · rfl
    · split
      · rw [updateMinMaxValues_fst_spots]
        exact hsp
      · exact hsp

/-- Witness for C9: one loaded measure, index `5` out of range. -/
theorem claim9_select_map_by_index_total_witness :
    c9State.measures = some [c1Measure] ∧
    ([c1Measure] : List Measure).get? 5 = none ∧
    c9State.spots = some [mkSpot "a"] ∧
    ((selectMapByIndex c9State 5).activeMeasure = .undef ∧
      mapName (selectMapByIndex c9State 5) = "" ∧
      ∃ spots1, (selectMapByIndex c9State 5).spots = some spots1 ∧
        spots1.length = ([mkSpot "a"] : List Spot).length ∧
        ∀ s ∈ spots1, s.intensity = JsVal.nan) :=
  ⟨rfl, rfl, rfl, claim9_select_map_by_index_total.2 c9State [c1Measure] 5 [mkSpot "a"]
    rfl rfl rfl⟩

/-! ### C8 -/

/-- C8: every write through the per-spot visibility accessor clamps — a
value below `0` is stored as `0`, a value above `1` as `1`, an in-range
value verbatim (never rejected); updates touch exactly the spots whose
name appears in the incoming mapping, names matching no spot are silently
ignored, no event is emitted, and without spots the write is a no-op. -/
theorem claim8_spot_visibility_clamped_and_filtered :
    (∀ v : ℚ, (v < 0 → clampVisibility v = 0) ∧ (1 < v → clampVisibility v = 1) ∧
      (0 ≤ v → v ≤ 1 → clampVisibility v = v)) ∧
    (∀ (ws : WState) (values : List (String × ℚ)) (spots : List Spot),
      ws.spots = some spots →
      (setSpotVisibility ws values).events = ws.events ∧
      ∃ spots1, (setSpotVisibility ws values).spots = some spots1 ∧
        spots1.length = spots.length ∧
        ∀ i (h1 : i < spots.length) (h2 : i < spots1.length),
          (∀ v, values.lookup (spots.get ⟨i, h1⟩).name = some v →
            spots1.get ⟨i, h2⟩
              = { spots.get ⟨i, h1⟩ with visibility := clampVisibility v }) ∧
          (values.lookup (spots.get ⟨i, h1⟩).name = none →
            spots1.get ⟨i, h2⟩ = spots.get ⟨i, h1⟩)) ∧
    (∀ (ws : WState) (values : List (String × ℚ)),
      ws.spots = none → setSpotVisibility ws values = ws) := by
  refine ⟨fun v => ?_, fun ws values spots hsp => ?_, fun ws values h => ?_⟩
  · unfold clampVisibility
    refine ⟨fun h => ?_, fun h => ?_, fun h0 h1 => ?_⟩ <;>
      split_ifs <;> first | rfl | linarith
  · have hevents : (setSpotVisibility ws values).events = ws.events := by
      simp only [setSpotVisibility, hsp]
      split <;> rfl
    have hspots : (setSpotVisibility ws values).spots
        = some (spots.map
            (fun s => if (values.lookup s.name).isSome then visSetter s values else s)) := by
      simp only [setSpotVisibility, hsp]
      split <;> rfl
    refine ⟨hevents, _, hspots, by simp, ?_⟩
    intro i h1 h2
    constructor
    · intro v hv
      simp only [List.get_eq_getElem] at hv
      simp [List.get_eq_getElem, List.getElem_map, visSetter, hv]
    · intro hv
      simp only [List.get_eq_getElem] at hv
      simp [List.get_eq_getElem, List.getElem_map, visSetter, hv]
  · simp [setSpotVisibility, h]

/-- Witness for C8: spot `a` written with `-2` (stored `0`), spot `b`
with `5` (stored `1`), name `z` matching no spot (ignored). -/
theorem claim8_spot_visibility_clamped_and_filtered_witness :
    c8State.spots = some [mkSpot "a", mkSpot "b", mkSpot "c"] ∧
    ((setSpotVisibility c8State c8Values).events = c8State.events ∧
      ∃ spots1, (setSpotVisibility c8State c8Values).spots = some spots1 ∧
        spots1.length = ([mkSpot "a", mkSpot "b", mkSpot "c"] : List Spot).length ∧
        ∀ i (h1 : i < ([mkSpot "a", mkSpot "b", mkSpot "c"] : List Spot).length)
          (h2 : i < spots1.length),
          (∀ v, c8Values.lookup (([mkSpot "a", mkSpot "b", mkSpot "c"] : List Spot).get
              ⟨i, h1⟩).name = some v →
            spots1.get ⟨i, h2⟩
              = { ([mkSpot "a", mkSpot "b", mkSpot "c"] : List Spot).get ⟨i, h1⟩ with
                    visibility := clampVisibility v }) ∧
          (c8Values.lookup (([mkSpot "a", mkSpot "b", mkSpot "c"] : List Spot).get
              ⟨i, h1⟩).name = none →
            spots1.get ⟨i, h2⟩
              = ([mkSpot "a", mkSpot "b", mkSpot "c"] : List Spot).get ⟨i, h1⟩)) ∧
    ((setSpotVisibility c8State c8Values).spots.getD []).map Spot.visibility = [0, 1, 1] :=
  ⟨rfl, claim8_spot_visibility_clamped_and_filtered.2.1 c8State c8Values _ rfl, by
    have ha : List.lookup "a" c8Values = some (-2) := rfl
    have hb : List.lookup "b" c8Values = some 5 := rfl
    have hc : List.lookup "c" c8Values = none := rfl
    norm_num [setSpotVisibility, c8State, visSetter, clampVisibility, mkSpot,
      initialWorkspace, ha, hb, hc]⟩

/-! ### Task-machine lemmas -/

theorem notify_events (ws : WState) (e : String) :
    (notify ws e).events = ws.events ++ [e] := by
  simp only [notify, loadPendingSettingsStep, startSettingsTask, insertKey]
  repeat' split
  all_goals rfl

theorem cancelTask_eq_of_pending_none (ws : WState) (k : String)
    (h : ws.settingsToLoad = none) :
    cancelTask ws k
      = { ws with tasks := ws.tasks.erase k,
                  events := ws.events
                    ++ (if (ws.tasks.erase k).isEmpty then ["no-tasks"] else []) } := by
  have herase : ∀ l : List String, k ∉ l → l.erase k = l := fun l hl =>
    List.erase_of_not_mem hl
  unfold cancelTask
  dsimp only
  by_cases hk : k ∈ ws.tasks
  · rw [if_pos hk]
    by_cases he : (({ ws with tasks := ws.tasks.erase k } : WState).tasks).isEmpty
    · rw [if_pos he]
      simp [notify, loadPendingSettingsStep, startSettingsTask, insertKey, h, he]
    · rw [if_neg he]
      simp [he]
  · rw [if_neg hk, herase ws.tasks hk]
    by_cases he : ws.tasks.isEmpty
    · rw [if_pos he]
      simp [notify, loadPendingSettingsStep, startSettingsTask, insertKey, h, he]
    · rw [if_neg he]
      simp [he]

theorem cancelTask_events_cases (ws : WState) (k : String) :
    (cancelTask ws k).events = ws.events ∨
    (cancelTask ws k).events = ws.events ++ ["no-tasks"] := by
  unfold cancelTask
  dsimp only
  by_cases hk : k ∈ ws.tasks
  · rw [if_pos hk]
    split
    · right
      rw [notify_events]
    · left
      rfl
  · rw [if_neg hk]
    split
    · right
      rw [notify_events]
    · left
      rfl

/-! ### C5 -/

/-- Counterexample to C5 as stated: with one running image-load task,
cancelling it twice is observably different from cancelling once — the
second call fires a second `no-tasks` event, because `_cancelTask`
notifies on every call whose resulting task set is empty. -/
theorem claim5_cancel_twice_counterexample :
    (cancelTask (cancelTask c5State "load-image") "load-image").events
      ≠ (cancelTask c5State "load-image").events := by
  decide

/-- C5 (amended): with no pending settings payload, a second `cancel` of
the same kind leaves the task set and the pending slot unchanged, but it
appends one more `no-tasks` event exactly when the task set is empty after
the first call; in particular a cancel on an already-empty task set (an
empty-to-empty transition) does fire a `no-tasks` event. -/
theorem claim5_cancel_idempotent_amended (ws : WState) (k : String)
    (hpend : ws.settingsToLoad = none) (hnodup : ws.tasks.Nodup) :
    (cancelTask (cancelTask ws k) k).tasks = (cancelTask ws k).tasks ∧
    (cancelTask (cancelTask ws k) k).settingsToLoad = none ∧
    (cancelTask (cancelTask ws k) k).events
      = (cancelTask ws k).events
        ++ (if (cancelTask ws k).tasks.isEmpty then ["no-tasks"] else []) ∧
    (ws.tasks = [] → (cancelTask ws k).events = ws.events ++ ["no-tasks"]) := by
  have e1 := cancelTask_eq_of_pending_none ws k hpend
  have hp1 : (cancelTask ws k).settingsToLoad = none := by rw [e1]; exact hpend
  have e2 := cancelTask_eq_of_pending_none (cancelTask ws k) k hp1
  have ht1 : (cancelTask ws k).tasks = ws.tasks.erase k := by rw [e1]
  have hkne : k ∉ (cancelTask ws k).tasks := by
    rw [ht1]
    intro hmem
    exact ((List.Nodup.mem_erase_iff hnodup).mp hmem).1 rfl
  have ht2 : (cancelTask ws k).tasks.erase k = (cancelTask ws k).tasks :=
    List.erase_of_not_mem hkne
  refine ⟨by rw [e2, ht2], by rw [e2]; exact hp1, by rw [e2, ht2], ?_⟩
  intro hnil
  rw [e1, hnil]
  simp [List.erase_nil]

/-- Witness for C5 (amended): one running image-load task, and the
concrete duplicated event trace. -/
theorem claim5_cancel_idempotent_amended_witness :
    c5State.settingsToLoad = none ∧ c5State.tasks.Nodup ∧
    ((cancelTask (cancelTask c5State "load-image") "load-image").tasks
        = (cancelTask c5State "load-image").tasks ∧
      (cancelTask (cancelTask c5State "load-image") "load-image").settingsToLoad = none ∧
      (cancelTask (cancelTask c5State "load-image") "load-image").events
        = (cancelTask c5State "load-image").events
          ++ (if (cancelTask c5State "load-image").tasks.isEmpty then ["no-tasks"] else []) ∧
      (c5State.tasks = [] →
        (cancelTask c5State "load-image").events = c5State.events ++ ["no-tasks"])) ∧
    (cancelTask (cancelTask c5State "load-image") "load-image").events
      = ["no-tasks", "no-tasks"] :=
  ⟨rfl, by decide,
    claim5_cancel_idempotent_amended c5State "load-image" rfl (by decide), by decide⟩

/-! ### C6 -/

/-- C6: a settings load never starts while any task runs — `loadSettings`
with a non-empty task set only stores the payload (a newer one overwriting
an undrained older one); the `LOAD_SETTINGS` task starts exactly when the
task set is empty and a payload is pending; the `no-tasks` signal (here
from the cancel that empties the set) drains automatically and clears the
pending slot; and completion exposes the loaded settings object and
publishes `settings-change`. -/
theorem claim6_settings_deferral :
    (∀ (ws : WState) (p : String), ws.tasks ≠ [] →
      loadSettings ws p = { ws with settingsToLoad := some p }) ∧
    (∀ (ws : WState) (p : String), ws.tasks = [] →
      (loadSettings ws p).tasks = ["load-settings"] ∧
      (loadSettings ws p).settingsToLoad = none) ∧
    (∀ ws : WState, ws.tasks = [] → ws.settingsToLoad.isSome →
      loadPendingSettingsStep ws
        = { ws with tasks := ["load-settings"], settingsToLoad := none }) ∧
    (∀ ws : WState, ¬(ws.tasks = [] ∧ ws.settingsToLoad.isSome) →
      loadPendingSettingsStep ws = ws) ∧
    (∀ (ws : WState) (k p : String), ws.tasks = [k] → ws.settingsToLoad = some p →
      cancelTask ws k
        = { ws with tasks := ["load-settings"], settingsToLoad := none,
                    events := ws.events ++ ["no-tasks"] }) ∧
    (∀ (ws : WState) (s : String),
      (completeSettingsTask ws s).loadedSettings = some s ∧
      ∃ l, (completeSettingsTask ws s).events = ws.events ++ l ++ ["settings-change"]) := by
  have hdrain : ∀ ws : WState, ws.tasks = [] → ws.settingsToLoad.isSome →
      loadPendingSettingsStep ws
        = { ws with tasks := ["load-settings"], settingsToLoad := none } := by
    intro ws h1 h2
    simp [loadPendingSettingsStep, startSettingsTask, insertKey, h1, h2]
  refine ⟨?_, ?_, hdrain, ?_, ?_, ?_⟩
  · intro ws p h
    simp [loadSettings, loadPendingSettingsStep, h]
  · intro ws p h
    rw [loadSettings, hdrain { ws with settingsToLoad := some p } h rfl]
    exact ⟨rfl, rfl⟩
  · intro ws h
    unfold loadPendingSettingsStep
    split
    · rename_i hcond
      rw [Bool.and_eq_true, List.isEmpty_iff] at hcond
      exact absurd ⟨hcond.1, hcond.2⟩ h
    · rfl
  · intro ws k p h1 h2
    have hkmem : k ∈ ws.tasks := by
      rw [h1]
      exact List.mem_singleton.mpr rfl
    unfold cancelTask
    dsimp only
    rw [if_pos hkmem]
    have he : (({ ws with tasks := ws.tasks.erase k } : WState).tasks).isEmpty = true := by
      simp [h1]
    rw [if_pos he]
    simp [notify, loadPendingSettingsStep, startSettingsTask, insertKey, h1, h2]
  · intro ws s
    have h1 : (completeSettingsTask ws s).loadedSettings = some s := by
      unfold completeSettingsTask
      dsimp only
      rw [notify_loadedSettings]
    refine ⟨h1, ?_⟩
    have hst : (setStatus ws "").events = ws.events ++ ["status-change"] := by
      unfold setStatus
      rw [notify_events]
    rcases cancelTask_events_cases (setStatus ws "") "load-settings" with hc | hc
    · refine ⟨["status-change"], ?_⟩
      unfold completeSettingsTask
      dsimp only
      rw [notify_events]
      dsimp only
      rw [hc, hst]
    · refine ⟨["status-change", "no-tasks"], ?_⟩
      unfold completeSettingsTask
      dsimp only
      rw [notify_events]
      dsimp only
      rw [hc, hst]
      simp

/-- Witness for C6: a running measures-load task defers the payload; an
empty task set starts the settings task at once; the cancel that empties
the set drains the pending payload; completion exposes the settings. -/
theorem claim6_settings_deferral_witness :
    c6State.tasks ≠ [] ∧
    loadSettings c6State "blob" = { c6State with settingsToLoad := some "blob" } ∧
    initialWorkspace.tasks = [] ∧
    (loadSettings initialWorkspace "blob").tasks = ["load-settings"] ∧
    c6Pending.tasks = ["load-measures"] ∧ c6Pending.settingsToLoad = some "blob" ∧
    cancelTask c6Pending "load-measures"
      = { c6Pending with tasks := ["load-settings"], settingsToLoad := none,
                         events := c6Pending.events ++ ["no-tasks"] } ∧
    (completeSettingsTask initialWorkspace "stt").loadedSettings = some "stt" :=
  ⟨by decide,
    claim6_settings_deferral.1 c6State "blob" (by decide),
    rfl,
    (claim6_settings_deferral.2.1 initialWorkspace "blob" rfl).1,
    rfl, rfl,
    claim6_settings_deferral.2.2.2.2.1 c6Pending "load-measures" "blob" rfl rfl,
    (claim6_settings_deferral.2.2.2.2.2 initialWorkspace "stt").1⟩

/-! ### C7 -/

theorem cancelTask_mode (ws : WState) (k : String) :
    (cancelTask ws k).mode = ws.mode := by
  unfold cancelTask
  dsimp only
  repeat' split
  all_goals simp

theorem cancelTask_spots (ws : WState) (k : String) :
    (cancelTask ws k).spots = ws.spots := by
  unfold cancelTask
  dsimp only
  repeat' split
  all_goals simp

theorem cancelTask_measures (ws : WState) (k : String) :
    (cancelTask ws k).measures = ws.measures := by
  unfold cancelTask
  dsimp only
  repeat' split
  all_goals simp

theorem cancelTask_activeMeasure (ws : WState) (k : String) :
    (cancelTask ws k).activeMeasure = ws.activeMeasure := by
  unfold cancelTask
  dsimp only
  repeat' split
  all_goals simp

theorem cancelTask_minValue (ws : WState) (k : String) :
    (cancelTask ws k).minValue = ws.minValue := by
  unfold cancelTask
  dsimp only
  repeat' split
  all_goals simp

theorem cancelTask_maxValue (ws : WState) (k : String) :
    (cancelTask ws k).maxValue = ws.maxValue := by
  unfold cancelTask
  dsimp only
  repeat' split
  all_goals simp

theorem cancelTask_colorMap (ws : WState) (k : String) :
    (cancelTask ws k).colorMap = ws.colorMap := by
  unfold cancelTask
  dsimp only
  repeat' split
  all_goals simp

theorem cancelTask_errors (ws : WState) (k : String) :
    (cancelTask ws k).errors = ws.errors := by
  unfold cancelTask
  dsimp only
  repeat' split
  all_goals simp

theorem cancelTask_scene2d (ws : WState) (k : String) :
    (cancelTask ws k).scene2d = ws.scene2d := by
  unfold cancelTask
  dsimp only
  repeat' split
  all_goals simp

theorem cancelTask_scene3d (ws : WState) (k : String) :
    (cancelTask ws k).scene3d = ws.scene3d := by
  unfold cancelTask
  dsimp only
  repeat' split
  all_goals simp

theorem cancelTask_currentScene (ws : WState) (k : String) :
    (cancelTask ws k).currentScene = ws.currentScene := by
  unfold cancelTask
  dsimp only
  repeat' split
  all_goals simp

theorem cancelTask_tasks_of_pending_none (ws : WState) (k : String)
    (h : ws.settingsToLoad = none) :
    (cancelTask ws k).tasks = ws.tasks.erase k := by
  rw [cancelTask_eq_of_pending_none ws k h]

theorem cancelTask_events_of_pending_none (ws : WState) (k : String)
    (h : ws.settingsToLoad = none) :
    (cancelTask ws k).events
      = ws.events ++ (if (ws.tasks.erase k).isEmpty then ["no-tasks"] else []) := by
  rw [cancelTask_eq_of_pending_none ws k h]

/-- A cancel only ever appends a possible `no-tasks` to the trace. -/
theorem cancelTask_events_suffix (ws : WState) (E : List String) (k : String)
    (h : ∃ l1, ws.events = E ++ l1 ∧ "mode-change" ∉ l1) :
    ∃ l, (cancelTask ws k).events = E ++ l ∧ "mode-change" ∉ l := by
  obtain ⟨l1, e1, m1⟩ := h
  rcases cancelTask_events_cases ws k with hc | hc
  · exact ⟨l1, by rw [hc, e1], m1⟩
  · refine ⟨l1 ++ ["no-tasks"], by rw [hc, e1, List.append_assoc], ?_⟩
    intro hmem
    rcases List.mem_append.mp hmem with hmem | hmem
    · exact m1 hmem
    · exact absurd (List.mem_singleton.mp hmem) (by decide)

/-- Packaging step: append the final `mode-change` to a traced suffix. -/
theorem events_mode_change_last (w : WState) (E : List String)
    (h : ∃ l, w.events = E ++ l ∧ "mode-change" ∉ l) :
    ∃ l, w.events ++ ["mode-change"] = E ++ l ++ ["mode-change"] ∧ "mode-change" ∉ l := by
  obtain ⟨l, e, m⟩ := h
  exact ⟨l, by rw [e], m⟩

/-- C7: re-setting the current mode is a total no-op (no state change, no
event); the 2D→3D transition resets the image, drops the 2D spot
reference, cancels the image-load task, attaches the retained spot
sequence to the 3D scene, changes nothing else, and fires `mode-change`
exactly once, as the final event; symmetrically 3D→2D clears the geometry
and the 3D spot reference, cancels the mesh-load task and attaches the
retained spots to the 2D scene; and every actual transition fires
`mode-change` exactly once, as the last event of the trace. -/
theorem claim7_mode_state_machine :
    (∀ ws : WState, setMode ws ws.mode = ws) ∧
    (∀ (ws : WState) (v : Mode), ws.mode ≠ v →
      ∃ l, (setMode ws v).events = ws.events ++ l ++ ["mode-change"] ∧
        "mode-change" ∉ l) ∧
    (∀ ws : WState, ws.mode = .mode2d → ws.settingsToLoad = none →
      (setMode ws .mode3d).mode = .mode3d ∧
      (setMode ws .mode3d).scene2d.image = none ∧
      (setMode ws .mode3d).scene2d.spots = none ∧
      (setMode ws .mode3d).scene2d.colorMap = ws.scene2d.colorMap ∧
      (setMode ws .mode3d).tasks = ws.tasks.erase "load-image" ∧
      (setMode ws .mode3d).scene3d = { ws.scene3d with spots := ws.spots } ∧
      (setMode ws .mode3d).currentScene = some .ref3d ∧
      (setMode ws .mode3d).spots = ws.spots ∧
      (setMode ws .mode3d).measures = ws.measures ∧
      (setMode ws .mode3d).activeMeasure = ws.activeMeasure ∧
      (setMode ws .mode3d).minValue = ws.minValue ∧
      (setMode ws .mode3d).maxValue = ws.maxValue ∧
      (setMode ws .mode3d).colorMap = ws.colorMap ∧
      (setMode ws .mode3d).errors = ws.errors) ∧
    (∀ ws : WState, ws.mode = .mode3d → ws.settingsToLoad = none →
      (setMode ws .mode2d).mode = .mode2d ∧
      (setMode ws .mode2d).scene3d.geometry = none ∧
      (setMode ws .mode2d).scene3d.spots = none ∧
      (setMode ws .mode2d).scene3d.colorMap = ws.scene3d.colorMap ∧
      (setMode ws .mode2d).tasks = ws.tasks.erase "load-mesh" ∧
      (setMode ws .mode2d).scene2d = { ws.scene2d with spots := ws.spots } ∧
      (setMode ws .mode2d).currentScene = some .ref2d ∧
      (setMode ws .mode2d).spots = ws.spots ∧
      (setMode ws .mode2d).measures = ws.measures ∧
      (setMode ws .mode2d).activeMeasure = ws.activeMeasure ∧
      (setMode ws .mode2d).minValue = ws.minValue ∧
      (setMode ws .mode2d).maxValue = ws.maxValue ∧
      (setMode ws .mode2d).colorMap = ws.colorMap ∧
      (setMode ws .mode2d).errors = ws.errors) := by
  have hmc : ("mode-change" : String) ≠ "no-tasks" := by decide
  refine ⟨fun ws => by simp [setMode], ?_, ?_, ?_⟩
  · intro ws v hne
    unfold setMode
    rw [if_neg hne]
    dsimp only
    cases v with
    | undefinedMode =>
      rw [if_neg (by decide : ¬ (Mode.undefinedMode = Mode.mode2d)),
        if_neg (by decide : ¬ (Mode.undefinedMode = Mode.mode3d)),
        notify_of_ne hmc]
      dsimp only
      exact events_mode_change_last _ _
        (cancelTask_events_suffix _ _ _
          (cancelTask_events_suffix _ _ _ ⟨[], by simp, by decide⟩))
    | mode2d =>
      rw [if_pos rfl, if_neg (by decide : ¬ (Mode.mode2d = Mode.mode3d)),
        notify_of_ne hmc]
      dsimp only
      exact events_mode_change_last _ _
        (cancelTask_events_suffix _ _ _ ⟨[], by simp, by decide⟩)
    | mode3d =>
      rw [if_neg (by decide : ¬ (Mode.mode3d = Mode.mode2d)), if_pos rfl,
        notify_of_ne hmc]
      dsimp only
      exact events_mode_change_last _ _
        (cancelTask_events_suffix _ _ _ ⟨[], by simp, by decide⟩)
  · intro ws h hpend
    have hne : ¬ (ws.mode = Mode.mode3d) := by simp [h]
    unfold setMode
    rw [if_neg hne]
    dsimp only
    rw [if_neg (by decide : ¬ (Mode.mode3d = Mode.mode2d)), if_pos rfl,
      notify_of_ne hmc]
    dsimp only
    refine ⟨by rw [cancelTask_mode], by rw [cancelTask_scene2d],
      by rw [cancelTask_scene2d], by rw [cancelTask_scene2d],
      cancelTask_tasks_of_pending_none _ _ hpend,
      by rw [cancelTask_scene3d, cancelTask_spots],
      rfl,
      by rw [cancelTask_spots], by rw [cancelTask_measures],
      by rw [cancelTask_activeMeasure], by rw [cancelTask_minValue],
      by rw [cancelTask_maxValue], by rw [cancelTask_colorMap],
      by rw [cancelTask_errors]⟩
  · intro ws h hpend
    have hne : ¬ (ws.mode = Mode.mode2d) := by simp [h]
    unfold setMode
    rw [if_neg hne]
    dsimp only
    rw [if_pos rfl, if_neg (by decide : ¬ (Mode.mode2d = Mode.mode3d)),
      notify_of_ne hmc]
    dsimp only
    refine ⟨by rw [cancelTask_mode], by rw [cancelTask_scene3d],
      by rw [cancelTask_scene3d], by rw [cancelTask_scene3d],
      cancelTask_tasks_of_pending_none _ _ hpend,
      by rw [cancelTask_scene2d], by rw [cancelTask_currentScene],
      by rw [cancelTask_spots], by rw [cancelTask_measures],
      by rw [cancelTask_activeMeasure], by rw [cancelTask_minValue],
      by rw [cancelTask_maxValue], by rw [cancelTask_colorMap],
      by rw [cancelTask_errors]⟩

/-- Witness for C7: the 2D workspace with an image and a running
image-load task switches to 3D. -/
theorem claim7_mode_state_machine_witness :
    setMode c7State c7State.mode = c7State ∧
    c7State.mode ≠ Mode.mode3d ∧
    (∃ l, (setMode c7State Mode.mode3d).events
        = c7State.events ++ l ++ ["mode-change"] ∧ "mode-change" ∉ l) ∧
    c7State.mode = .mode2d ∧ c7State.settingsToLoad = none ∧
    ((setMode c7State .mode3d).mode = .mode3d ∧
      (setMode c7State .mode3d).scene2d.image = none ∧
      (setMode c7State .mode3d).scene2d.spots = none ∧
      (setMode c7State .mode3d).scene2d.colorMap = c7State.scene2d.colorMap ∧
      (setMode c7State .mode3d).tasks = c7State.tasks.erase "load-image" ∧
      (setMode c7State .mode3d).scene3d
        = { c7State.scene3d with spots := c7State.spots } ∧
      (setMode c7State .mode3d).currentScene = some .ref3d ∧
      (setMode c7State .mode3d).spots = c7State.spots ∧
      (setMode c7State .mode3d).measures = c7State.measures ∧
      (setMode c7State .mode3d).activeMeasure = c7State.activeMeasure ∧
      (setMode c7State .mode3d).minValue = c7State.minValue ∧
      (setMode c7State .mode3d).maxValue = c7State.maxValue ∧
      (setMode c7State .mode3d).colorMap = c7State.colorMap ∧
      (setMode c7State .mode3d).errors = c7State.errors) ∧
    (setMode c7State Mode.mode3d).events = ["no-tasks", "mode-change"] :=
  ⟨claim7_mode_state_machine.1 c7State, by decide,
    claim7_mode_state_machine.2.1 c7State Mode.mode3d (by decide),
    rfl, rfl,
    claim7_mode_state_machine.2.2.1 c7State rfl rfl,
    by decide⟩

/-! ### C1 -/

/-- What `_updateMinMaxValues` stores in the two bounds, no matter whether
the loose-inequality change test fires (when it does not fire, the stored
bounds were already loosely equal to the recomputed ones, which — for
bounds that are neither `null` nor `undefined` — means equal). -/
theorem updateMinMaxValues_bounds (ws : WState) (m : Measure)
    (ham : ws.activeMeasure = .mval m)
    (hmn : ws.minValue ≠ .null) (hmnu : ws.minValue ≠ .undef)
    (hmx : ws.maxValue ≠ .null) (hmxu : ws.maxValue ≠ .undef) :
    (updateMinMaxValues ws).1.minValue
      = (if 0 < ((m.values.filter ws.scale.filter).insertionSort JsLe).length then
          ws.scale.fn (((m.values.filter ws.scale.filter).insertionSort JsLe).getD 0 .undef)
        else .num 0) ∧
    (updateMinMaxValues ws).1.maxValue
      = (if 0 < ((m.values.filter ws.scale.filter).insertionSort JsLe).length then
          ws.scale.fn (jsIndex ((m.values.filter ws.scale.filter).insertionSort JsLe)
            ⌈((((m.values.filter ws.scale.filter).insertionSort JsLe).length : ℚ) - 1)
                * ws.hotspotQuantile⌉)
        else .num 0) := by
  unfold updateMinMaxValues
  rw [ham]
  dsimp only
  refine ⟨?_, ?_⟩
  · split <;> split
    · simp
    · rename_i hcond
      simp only [Bool.or_eq_true, not_or, Bool.not_eq_true, jsLooseNEq,
        Bool.not_eq_false'] at hcond
      exact eq_of_jsLooseEq hcond.1 hmn hmnu
    · simp
    · rename_i hcond
      simp only [Bool.or_eq_true, not_or, Bool.not_eq_true, jsLooseNEq,
        Bool.not_eq_false'] at hcond
      exact eq_of_jsLooseEq hcond.1 hmn hmnu
  · split <;> split
    · simp
    · rename_i hcond
      simp only [Bool.or_eq_true, not_or, Bool.not_eq_true, jsLooseNEq,
        Bool.not_eq_false'] at hcond
      exact eq_of_jsLooseEq hcond.2 hmx hmxu
    · simp
    · rename_i hcond
      simp only [Bool.or_eq_true, not_or, Bool.not_eq_true, jsLooseNEq,
        Bool.not_eq_false'] at hcond
      exact eq_of_jsLooseEq hcond.2 hmx hmxu

/-- C1: with `autoMinMax` on and an active measure, the recompute discards
raw values failing the scale's domain predicate; the surviving values,
sorted ascending, determine the bounds — `minValue` is the transform of
the smallest survivor and `maxValue` the transform of the survivor at
rank `ceil((n-1)*hotspotQuantile)` (a real survivor when the quantile lies
in `[0,1]`), both bounds being `0` when nothing survives.  On the spec's
example — values `[1,2,3,4,5]`, linear scale, quantile `0.5` — selection
yields `minValue = 1`, `maxValue = 3`, the subsequent intensity recompute
maps raw `3` to `1.0` and raw `2` to `0.5`, and a scaled value `0.5`
below the minimum is assigned the not-a-number sentinel. -/
theorem claim1_auto_bounds_quantile :
    (∀ (ws : WState) (m : Measure),
      ws.autoMinMax = true →
      ws.activeMeasure = .mval m →
      0 ≤ ws.hotspotQuantile → ws.hotspotQuantile ≤ 1 →
      ws.minValue ≠ .null → ws.minValue ≠ .undef →
      ws.maxValue ≠ .null → ws.maxValue ≠ .undef →
      (m.values.filter ws.scale.filter = [] →
        (updateMinMaxValues ws).1.minValue = .num 0 ∧
        (updateMinMaxValues ws).1.maxValue = .num 0) ∧
      (m.values.filter ws.scale.filter ≠ [] →
        ∃ sorted : List JsVal,
          sorted.Perm (m.values.filter ws.scale.filter) ∧
          sorted.Sorted JsLe ∧
          (updateMinMaxValues ws).1.minValue = ws.scale.fn (sorted.getD 0 .undef) ∧
          (∀ x ∈ m.values.filter ws.scale.filter, JsLe (sorted.getD 0 .undef) x) ∧
          (updateMinMaxValues ws).1.maxValue
            = ws.scale.fn (sorted.getD
                (⌈(((m.values.filter ws.scale.filter).length : ℚ) - 1)
                    * ws.hotspotQuantile⌉).toNat .undef) ∧
          sorted.getD
              (⌈(((m.values.filter ws.scale.filter).length : ℚ) - 1)
                  * ws.hotspotQuantile⌉).toNat .undef
            ∈ m.values.filter ws.scale.filter)) ∧
    (selectMapByIndex c1State 0).minValue = .num 1 ∧
    (selectMapByIndex c1State 0).maxValue = .num 3 ∧
    ((selectMapByIndex c1State 0).spots.getD []).map Spot.intensity
      = [.num 0, .num (1/2), .num 1, .num 1, .num 1] ∧
    spotIntensityCore (.num 1) (.num 3) (.num (1/2)) = .nan := by
  refine ⟨?_, ?_, ?_, ?_, ?_⟩
  · intro ws m hauto ham hq0 hq1 hmn hmnu hmx hmxu
    obtain ⟨hminB, hmaxB⟩ := updateMinMaxValues_bounds ws m ham hmn hmnu hmx hmxu
    set S := m.values.filter ws.scale.filter with hS
    have hlen : (S.insertionSort JsLe).length = S.length :=
      List.length_insertionSort JsLe S
    constructor
    · intro hS0
      rw [hminB, hmaxB, hS0]
      simp [List.insertionSort]
    · intro hSne
      have hpos : 0 < (S.insertionSort JsLe).length := by
        rw [hlen]
        exact List.length_pos.mpr hSne
      have hperm := List.perm_insertionSort JsLe S
      have hsorted := List.sorted_insertionSort JsLe S
      have hn1 : 1 ≤ S.length := List.length_pos.mpr hSne
      have hnum : (0:ℚ) ≤ (S.length : ℚ) - 1 := by
        have h1 : (1:ℚ) ≤ (S.length : ℚ) := by exact_mod_cast hn1
        linarith
      have hnn : (0:ℤ) ≤ ⌈((S.length : ℚ) - 1) * ws.hotspotQuantile⌉ :=
        Int.ceil_nonneg (mul_nonneg hnum hq0)
      have hlt : (⌈((S.length : ℚ) - 1) * ws.hotspotQuantile⌉).toNat < S.length := by
        have hle1 : ((S.length : ℚ) - 1) * ws.hotspotQuantile ≤ (S.length : ℚ) - 1 := by
          calc ((S.length : ℚ) - 1) * ws.hotspotQuantile
              ≤ ((S.length : ℚ) - 1) * 1 := mul_le_mul_of_nonneg_left hq1 hnum
            _ = (S.length : ℚ) - 1 := mul_one _
        have hcast : ((S.length : ℚ) - 1) = (((S.length : ℤ) - 1 : ℤ) : ℚ) := by
          push_cast
          ring
        have hceil : (⌈((S.length : ℚ) - 1) * ws.hotspotQuantile⌉ : ℤ)
            ≤ (S.length : ℤ) - 1 := by
          calc (⌈((S.length : ℚ) - 1) * ws.hotspotQuantile⌉ : ℤ)
              ≤ ⌈((S.length : ℚ) - 1)⌉ := Int.ceil_le_ceil hle1
            _ = (S.length : ℤ) - 1 := by rw [hcast, Int.ceil_intCast]
        omega
      have hidx : (⌈((S.length : ℚ) - 1) * ws.hotspotQuantile⌉).toNat
          < (S.insertionSort JsLe).length := by
        rw [hlen]
        exact hlt
      refine ⟨S.insertionSort JsLe, hperm, hsorted, ?_, ?_, ?_, ?_⟩
      · rw [hminB, if_pos hpos]
      · intro x hx
        have hx' : x ∈ S.insertionSort JsLe := hperm.mem_iff.mpr hx
        obtain ⟨v, rest, hcons⟩ :=
          List.exists_cons_of_ne_nil (List.ne_nil_of_length_pos hpos)
        rw [hcons] at hx' ⊢
        rw [hcons] at hsorted
        rcases List.mem_cons.mp hx' with rfl | hxr
        · simpa [List.getD_cons_zero] using IsRefl.refl (r := JsLe) x
        · simpa [List.getD_cons_zero] using List.rel_of_sorted_cons hsorted x hxr
      · rw [hmaxB, if_pos hpos, hlen, jsIndex_of_nonneg _ _ hnn]
      · have hget : (S.insertionSort JsLe).getD
            (⌈((S.length : ℚ) - 1) * ws.hotspotQuantile⌉).toNat .undef
            = (S.insertionSort JsLe).get
                ⟨(⌈((S.length : ℚ) - 1) * ws.hotspotQuantile⌉).toNat, hidx⟩ := by
          rw [List.getD_eq_getElem _ _ hidx]
          rfl
        rw [hget]
        exact hperm.mem_iff.mp (List.get_mem _ _ _)
  · norm_num [selectMapByIndex, c1State, c1Measure, initialWorkspace, updateMinMaxValues,
      updateIntensities, mapIdxFrom, scaledValueAt, spotIntensityCore, mkSpot,
      List.insertionSort, List.orderedInsert, JsLe, eLE, toENum, LINEAR, jsGT, jsLT, jsGE,
      eLT, jsLooseNEq, jsLooseEq, jsSub, jsDiv, eSub, eDiv, ofENum, notify,
      loadPendingSettingsStep, List.filter, mathLog10, jsIndex, show ((2:ℤ)).toNat = 2 from rfl,
      List.getElem_cons_succ, List.getElem_cons_zero]
  · norm_num [selectMapByIndex, c1State, c1Measure, initialWorkspace, updateMinMaxValues,
      updateIntensities, mapIdxFrom, scaledValueAt, spotIntensityCore, mkSpot,
      List.insertionSort, List.orderedInsert, JsLe, eLE, toENum, LINEAR, jsGT, jsLT, jsGE,
      eLT, jsLooseNEq, jsLooseEq, jsSub, jsDiv, eSub, eDiv, ofENum, notify,
      loadPendingSettingsStep, List.filter, mathLog10, jsIndex, show ((2:ℤ)).toNat = 2 from rfl,
      List.getElem_cons_succ, List.getElem_cons_zero]
  · norm_num [selectMapByIndex, c1State, c1Measure, initialWorkspace, updateMinMaxValues,
      updateIntensities, mapIdxFrom, scaledValueAt, spotIntensityCore, mkSpot,
      List.insertionSort, List.orderedInsert, JsLe, eLE, toENum, LINEAR, jsGT, jsLT, jsGE,
      eLT, jsLooseNEq, jsLooseEq, jsSub, jsDiv, eSub, eDiv, ofENum, notify,
      loadPendingSettingsStep, List.filter, mathLog10, jsIndex, show ((2:ℤ)).toNat = 2 from rfl,
      List.getElem_cons_succ, List.getElem_cons_zero]
  · norm_num [spotIntensityCore, jsGE, jsSub, jsDiv, eSub, eDiv, toENum, ofENum, eLE, eLT]

/-- Witness for C1: the quantile-boundary state right after selection;
all hypotheses hold there and the general conclusion applies. -/
theorem claim1_auto_bounds_quantile_witness :
    c1Selected.autoMinMax = true ∧
    c1Selected.activeMeasure = .mval c1Measure ∧
    0 ≤ c1Selected.hotspotQuantile ∧ c1Selected.hotspotQuantile ≤ 1 ∧
    c1Selected.minValue ≠ .null ∧ c1Selected.minValue ≠ .undef ∧
    c1Selected.maxValue ≠ .null ∧ c1Selected.maxValue ≠ .undef ∧
    (c1Measure.values.filter c1Selected.scale.filter ≠ [] →
      ∃ sorted : List JsVal,
        sorted.Perm (c1Measure.values.filter c1Selected.scale.filter) ∧
        sorted.Sorted JsLe ∧
        (updateMinMaxValues c1Selected).1.minValue
          = c1Selected.scale.fn (sorted.getD 0 .undef) ∧
        (∀ x ∈ c1Measure.values.filter c1Selected.scale.filter,
          JsLe (sorted.getD 0 .undef) x) ∧
        (updateMinMaxValues c1Selected).1.maxValue
          = c1Selected.scale.fn (sorted.getD
              (⌈(((c1Measure.values.filter c1Selected.scale.filter).length : ℚ) - 1)
                  * c1Selected.hotspotQuantile⌉).toNat .undef) ∧
        sorted.getD
            (⌈(((c1Measure.values.filter c1Selected.scale.filter).length : ℚ) - 1)
                * c1Selected.hotspotQuantile⌉).toNat .undef
          ∈ c1Measure.values.filter c1Selected.scale.filter) :=
  ⟨rfl, rfl, by norm_num [c1Selected, c1State, initialWorkspace],
    by norm_num [c1Selected, c1State, initialWorkspace],
    by decide, by decide, by decide, by decide,
    (claim1_auto_bounds_quantile.1 c1Selected c1Measure rfl rfl
      (by norm_num [c1Selected, c1State, initialWorkspace])
      (by norm_num [c1Selected, c1State, initialWorkspace])
      (by decide) (by decide) (by decide) (by decide)).2⟩

end IliWorkspace